import Mathlib

/-!
Shallow embedding of the `shared_lib` crate (`src/shared_lib/src/lib.rs`),
a wrapper around dynamic library loading with platform-aware path
resolution and structured errors.

Modelling choices:
* Paths and OS strings are modelled as `String`; the model works over
  valid Unicode data, so `to_string_lossy` is the identity.
* The host platform (the `target_os` distinction baked in at compile time
  in Rust) is an explicit `Platform` parameter.
* The OS loader (`libloading::Library::new`) and the symbol lookup
  (`Library::get`) are uninterpreted functions passed as parameters,
  returning `Except String`, where the error is the OS-reported message.
* A Rust panic (an `unwrap` of an error value) is modelled as
  `Option.none`.
-/

/-- Host platform family: the compile-time distinction used by
`libloading::library_filename` through `std::env::consts`. `linuxLike`
covers Linux and the remaining Unix-like targets, which share the
`lib{name}.so` convention. -/
inductive Platform
  | windows
  | macos
  | linuxLike
  deriving DecidableEq, Repr

/-- Models `std::env::consts::DLL_PREFIX`: `""` on Windows, `"lib"` on
macOS-like and Linux-like/other Unix platforms. -/
def dllPrefixStr : Platform → String
  | .windows => ""
  | .macos => "lib"
  | .linuxLike => "lib"

/-- Models `std::env::consts::DLL_SUFFIX`: `".dll"` on Windows,
`".dylib"` on macOS-like, `".so"` on Linux-like/other Unix platforms. -/
def dllSuffixStr : Platform → String
  | .windows => ".dll"
  | .macos => ".dylib"
  | .linuxLike => ".so"

/-- Models `libloading::library_filename`, which produces
`DLL_PREFIX ++ name ++ DLL_SUFFIX` for the host platform. -/
def library_filename (p : Platform) (name : String) : String :=
  dllPrefixStr p ++ name ++ dllSuffixStr p

/-- The error enum `SharedLibError` of `src/shared_lib/src/lib.rs`
(lines 24–34), with the same four constructors and payloads. -/
inductive SharedLibError
  | PathEmpty
  | PathConversion (path : String) (target : String)
  | LoadFailure (path : String) (msg : String)
  | SymbolNotFound (symbol_name : String) (lib_name : String) (msg : String)
  deriving DecidableEq, Repr

/-- The descriptor `LibPath { dir_path: PathBuf, lib_name: String }`. -/
structure LibPath where
  dir_path : String
  lib_name : String
  deriving DecidableEq, Repr

/-- Models `std::path::MAIN_SEPARATOR_STR`: `"\"` on Windows, `"/"`
elsewhere. -/
def mainSeparator : Platform → String
  | .windows => "\\"
  | _ => "/"

/-- String suffix test on the underlying character lists (the model of
`str::ends_with`). -/
def strEndsWith (s suf : String) : Bool :=
  List.isSuffixOf suf.data s.data

/-- Models `PathBuf::join` (i.e. `push`) for a relative filename
component: the primary separator is inserted only when the directory is
non-empty and does not already end with it.  (`library_filename` output
is a relative component for logical names free of path syntax; the
absolute-replacement branch of `push` is outside this model.) -/
def pathJoin (p : Platform) (dir file : String) : String :=
  if dir.isEmpty then file
  else if strEndsWith dir (mainSeparator p) then dir ++ file
  else dir ++ mainSeparator p ++ file

/-- `LibPath::new` (lib.rs lines 67–69). -/
def LibPath.new (dir_path : String) (lib_name : String) : LibPath :=
  ⟨dir_path, lib_name⟩

/-- `LibPath::new_no_path` (lib.rs lines 74–79): empty directory. -/
def LibPath.new_no_path (lib_name : String) : LibPath :=
  ⟨"", lib_name⟩

/-- `LibPath::filename` (lib.rs lines 95–100): `PathEmpty` when the
logical name is empty, otherwise `library_filename(lib_name)`. -/
def LibPath.filename (p : Platform) (self : LibPath) : Except SharedLibError String :=
  if self.lib_name.isEmpty then
    .error .PathEmpty
  else
    .ok (library_filename p self.lib_name)

/-- `LibPath::path` (lib.rs lines 114–116):
`self.dir_path.join(self.filename()?)`. -/
def LibPath.path (p : Platform) (self : LibPath) : Except SharedLibError String :=
  match self.filename p with
  | .error e => .error e
  | .ok f => .ok (pathJoin p self.dir_path f)

/-- `OsStr::to_string_lossy` on data that is valid Unicode: the
identity (model strings carry no invalid encoding units). -/
def toStringLossy (s : String) : String := s

/-- `impl ToString for LibPath` (lib.rs lines 46–51):
`self.path().unwrap().to_str().unwrap().to_string()`.  The two `unwrap`s
panic on failure; the panic is modelled as `none`.  In this model path
data is valid Unicode, so `to_str` succeeds whenever `path` does. -/
def LibPath.toString (p : Platform) (self : LibPath) : Option String :=
  match self.path p with
  | .error _ => none
  | .ok s => some s

/-- The inner `path.clone().try_into()` of the `TryInto<OsString>` impl
converts a `PathBuf` to an `OsString`.  The applicable instance is the
blanket `TryFrom` built on the infallible `From<PathBuf> for OsString`
(its error type is `Infallible`), so it always succeeds. -/
def pathBufIntoOsString (path : String) : Except Unit String :=
  .ok path

/-- `impl TryInto<OsString> for LibPath` (lib.rs lines 52–60): resolve
the path, then convert it, mapping a conversion error (unreachable, see
`pathBufIntoOsString`) to `PathConversion(path, "OsString")`. -/
def LibPath.tryIntoOsString (p : Platform) (self : LibPath) : Except SharedLibError String :=
  match self.path p with
  | .error e => .error e
  | .ok path =>
    match pathBufIntoOsString path with
    | .ok s => .ok s
    | .error _ => .error (.PathConversion path "OsString")

/-- `SharedLib { lib: Library, lib_path: LibPath }`; the loaded library
handle type is an opaque parameter `Lib`. -/
structure SharedLib (Lib : Type) where
  lib : Lib
  lib_path : LibPath

/-- `SharedLib::new` (lib.rs lines 171–185); `osLoad` is the
uninterpreted OS loader `libloading::Library::new`, returning the loaded
library or the OS error message.  On loader failure, the path string is
recomputed via `try_into` (propagating its error) and wrapped with the
message into `LoadFailure`. -/
def SharedLib.new {Lib : Type} (p : Platform) (osLoad : String → Except String Lib)
    (lib_path : LibPath) : Except SharedLibError (SharedLib Lib) :=
  match lib_path.tryIntoOsString p with
  | .error e => .error e
  | .ok os_str =>
    match osLoad os_str with
    | .ok lib => .ok ⟨lib, lib_path⟩
    | .error e =>
      match lib_path.tryIntoOsString p with
      | .error e2 => .error e2
      | .ok path_str => .error (.LoadFailure (toStringLossy path_str) e)

/-- `SharedLibFn` (lib.rs lines 121–127): wrapper around a resolved
symbol of function type `F`. -/
structure SharedLibFn (F : Type) where
  symbol : F

/-- `run` for `fn() -> Ret` (lib.rs lines 129–133); the nullary foreign
function is modelled as `Unit → Ret`. -/
def SharedLibFn.run0 {Ret : Type} (self : SharedLibFn (Unit → Ret)) : Ret :=
  self.symbol ()

/-- `run` for `fn(A1) -> Ret` (lib.rs lines 135–139). -/
def SharedLibFn.run1 {A1 Ret : Type} (self : SharedLibFn (A1 → Ret)) (a1 : A1) : Ret :=
  self.symbol a1

/-- `run` for `fn(A1, A2) -> Ret` (lib.rs lines 140–144). -/
def SharedLibFn.run2 {A1 A2 Ret : Type} (self : SharedLibFn (A1 → A2 → Ret))
    (a1 : A1) (a2 : A2) : Ret :=
  self.symbol a1 a2

/-- `run` for `fn(A1, A2, A3) -> Ret` (lib.rs lines 145–149). -/
def SharedLibFn.run3 {A1 A2 A3 Ret : Type} (self : SharedLibFn (A1 → A2 → A3 → Ret))
    (a1 : A1) (a2 : A2) (a3 : A3) : Ret :=
  self.symbol a1 a2 a3

/-- `run` for `fn(A1, A2, A3, A4) -> Ret` (lib.rs lines 150–154). -/
def SharedLibFn.run4 {A1 A2 A3 A4 Ret : Type}
    (self : SharedLibFn (A1 → A2 → A3 → A4 → Ret))
    (a1 : A1) (a2 : A2) (a3 : A3) (a4 : A4) : Ret :=
  self.symbol a1 a2 a3 a4

/-- `run` for `fn(A1, A2, A3, A4, A5) -> Ret` (lib.rs lines 155–159). -/
def SharedLibFn.run5 {A1 A2 A3 A4 A5 Ret : Type}
    (self : SharedLibFn (A1 → A2 → A3 → A4 → A5 → Ret))
    (a1 : A1) (a2 : A2) (a3 : A3) (a4 : A4) (a5 : A5) : Ret :=
  self.symbol a1 a2 a3 a4 a5

/-- `SharedLib::get_fn` (lib.rs lines 200–212); `getSym` is the
uninterpreted `Library::get` symbol lookup.  On lookup failure,
`SymbolNotFound` carries the requested name and the descriptor's
resolved path (recomputed via `path()?`, propagating its error). -/
def SharedLib.get_fn {Lib T : Type} (p : Platform)
    (getSym : Lib → String → Except String T)
    (self : SharedLib Lib) (fn_name : String) :
    Except SharedLibError (SharedLibFn T) :=
  match getSym self.lib fn_name with
  | .ok symbol => .ok ⟨symbol⟩
  | .error e =>
    match self.lib_path.path p with
    | .error e2 => .error e2
    | .ok pth => .error (.SymbolNotFound fn_name (toStringLossy pth) e)

/-! ### Helper lemmas shared by the claim theorems -/

/-- The `TryInto<OsString>` conversion agrees with path resolution: the
inner `PathBuf → OsString` step is infallible, so the whole conversion
returns exactly the result of `path`. -/
theorem LibPath.tryInto_eq_path (p : Platform) (lp : LibPath) :
    lp.tryIntoOsString p = lp.path p := by
  unfold LibPath.tryIntoOsString pathBufIntoOsString
  cases hp : lp.path p <;> rfl

/-- The only error `path` can produce is `PathEmpty` (propagated from
`filename`). -/
theorem LibPath.path_error_pathEmpty (p : Platform) (lp : LibPath)
    (e : SharedLibError) (h : lp.path p = .error e) : e = .PathEmpty := by
  unfold LibPath.path LibPath.filename at h
  by_cases hb : lp.lib_name.isEmpty = true <;> simp [hb] at h
  exact h.symm

/-- A non-empty string has `isEmpty = false`. -/
theorem String.isEmpty_eq_false_of_ne {s : String} (h : s ≠ "") :
    s.isEmpty = false := by
  rw [Bool.eq_false_iff]
  simp [String.isEmpty_iff, h]

/-! ### Claim theorems -/

/-- C1: for every non-empty logical name, `filename` returns exactly the
canonical platform-specific form: `{name}.dll` on Windows,
`lib{name}.dylib` on macOS-like platforms, and `lib{name}.so` on
Linux-like/other Unix platforms. -/
theorem C1_filename_canonical (dir name : String) (h : name ≠ "") :
    (LibPath.new dir name).filename .windows = .ok (name ++ ".dll") ∧
    (LibPath.new dir name).filename .macos = .ok ("lib" ++ name ++ ".dylib") ∧
    (LibPath.new dir name).filename .linuxLike = .ok ("lib" ++ name ++ ".so") := by
  have hne : name.isEmpty = false := String.isEmpty_eq_false_of_ne h
  refine ⟨?_, ?_, ?_⟩ <;>
    simp [LibPath.new, LibPath.filename, library_filename, dllPrefixStr, dllSuffixStr,
      hne, String.empty_append]

theorem C1_filename_canonical_witness :
    (LibPath.new "test_dir" "calculator").filename .windows = .ok ("calculator" ++ ".dll") ∧
    (LibPath.new "test_dir" "calculator").filename .macos
      = .ok ("lib" ++ "calculator" ++ ".dylib") ∧
    (LibPath.new "test_dir" "calculator").filename .linuxLike
      = .ok ("lib" ++ "calculator" ++ ".so") :=
  C1_filename_canonical "test_dir" "calculator" (by decide)

/-- C2: `filename` and `path` fail with `PathEmpty` exactly when the
logical name is the empty string, for every directory and platform; the
failure is an error value returned by a total function, before any OS
interaction. -/
theorem C2_pathEmpty_iff (p : Platform) (dir name : String) :
    ((LibPath.new dir name).filename p = .error .PathEmpty ↔ name = "") ∧
    ((LibPath.new dir name).path p = .error .PathEmpty ↔ name = "") := by
  by_cases h : name = "" <;>
    simp [LibPath.new, LibPath.filename, LibPath.path, h, String.isEmpty_iff]

/-- C3 counterexample: the claim says every public operation on a
descriptor with an empty logical name returns a structured error rather
than aborting, but the `ToString` conversion `unwrap`s the failed path
resolution and panics there (modelled as `none`): on the concrete
descriptor `{ dir_path: "test_dir", lib_name: "" }` it aborts instead of
returning an error value. -/
theorem C3_toString_aborts_counterexample :
    (LibPath.new "test_dir" "").toString .linuxLike = none := rfl

/-- C3 amended: every `Result`-returning public operation (`filename`,
`path`, `TryInto<OsString>`, `SharedLib::new`) returns the structured
`PathEmpty` error on the empty-name failure path, but the `ToString`
conversion aborts (panics) there instead of returning an error. -/
theorem C3_result_ops_error_toString_aborts {Lib : Type} (p : Platform)
    (dir : String) (osLoad : String → Except String Lib) :
    (LibPath.new dir "").filename p = .error .PathEmpty ∧
    (LibPath.new dir "").path p = .error .PathEmpty ∧
    (LibPath.new dir "").tryIntoOsString p = .error .PathEmpty ∧
    SharedLib.new p osLoad (LibPath.new dir "") = .error .PathEmpty ∧
    (LibPath.new dir "").toString p = none :=
  ⟨rfl, rfl, rfl, rfl, rfl⟩

/-- C4: the platform-string conversion never fails with `PathConversion`
(the `PathBuf → OsString` step of the source is infallible, so no
resolved path holds unrepresentable data), and it succeeds on every
descriptor whose path resolution succeeds, returning that very path. -/
theorem C4_tryInto_no_pathConversion (p : Platform) (lp : LibPath) :
    (∀ s t, lp.tryIntoOsString p ≠ .error (.PathConversion s t)) ∧
    (∀ s, lp.path p = .ok s → lp.tryIntoOsString p = .ok s) := by
  constructor
  · intro s t hc
    rw [LibPath.tryInto_eq_path] at hc
    have := LibPath.path_error_pathEmpty p lp _ hc
    exact SharedLibError.noConfusion this
  · intro s hs
    rw [LibPath.tryInto_eq_path]
    exact hs

theorem C4_tryInto_no_pathConversion_witness :
    (LibPath.new "d" "n").tryIntoOsString .linuxLike = .ok "d/libn.so" :=
  (C4_tryInto_no_pathConversion .linuxLike (LibPath.new "d" "n")).2 "d/libn.so" rfl

/-- C5: for a non-empty directory and non-empty logical name, `path`
returns exactly the directory joined with `filename(name)` using the
platform's path separator (inserted unless the directory already ends
with it), and it propagates `PathEmpty` when the name is empty. -/
theorem C5_path_joins_dir_and_filename (p : Platform) (dir name : String)
    (hd : dir ≠ "") (hn : name ≠ "") :
    (LibPath.new dir name).path p =
      .ok (if strEndsWith dir (mainSeparator p) then dir ++ library_filename p name
        else dir ++ mainSeparator p ++ library_filename p name) ∧
    (LibPath.new dir "").path p = .error .PathEmpty := by
  have hne : name.isEmpty = false := String.isEmpty_eq_false_of_ne hn
  have hde : dir.isEmpty = false := String.isEmpty_eq_false_of_ne hd
  refine ⟨?_, rfl⟩
  simp [LibPath.new, LibPath.path, LibPath.filename, pathJoin, hne, hde]

theorem C5_path_joins_dir_and_filename_witness :
    (LibPath.new "test_dir" "test_name").path .linuxLike =
      .ok (if strEndsWith "test_dir" (mainSeparator .linuxLike)
        then "test_dir" ++ library_filename .linuxLike "test_name"
        else "test_dir" ++ mainSeparator .linuxLike ++ library_filename .linuxLike "test_name") ∧
    (LibPath.new "test_dir" "").path .linuxLike = .error .PathEmpty :=
  C5_path_joins_dir_and_filename .linuxLike "test_dir" "test_name" (by decide) (by decide)

/-- C6: when the OS loader rejects the load, `SharedLib::new` returns
`LoadFailure` whose `path` is the resolved platform string of the
descriptor (lossily converted, the identity on valid Unicode) and whose
`msg` is the OS-reported diagnostic; when the conversion fails first its
error (`PathEmpty`/`PathConversion`) is propagated unchanged; and a
library handle is returned only when the loader succeeded on the
resolved string. -/
theorem C6_new_failure_behavior {Lib : Type} (p : Platform)
    (osLoad : String → Except String Lib) (lp : LibPath) :
    (∀ e, lp.tryIntoOsString p = .error e → SharedLib.new p osLoad lp = .error e) ∧
    (∀ s m, lp.tryIntoOsString p = .ok s → osLoad s = .error m →
      SharedLib.new p osLoad lp = .error (.LoadFailure (toStringLossy s) m)) ∧
    (∀ sl, SharedLib.new p osLoad lp = .ok sl →
      ∃ s, lp.tryIntoOsString p = .ok s ∧ osLoad s = .ok sl.lib ∧ sl.lib_path = lp) := by
  refine ⟨?_, ?_, ?_⟩
  · intro e he
    unfold SharedLib.new
    rw [he]
  · intro s m hs hm
    unfold SharedLib.new
    simp only [hs, hm]
  · intro sl hsl
    unfold SharedLib.new at hsl
    cases hti : lp.tryIntoOsString p with
    | error e =>
      rw [hti] at hsl
      exact Except.noConfusion hsl
    | ok s =>
      simp only [hti] at hsl
      cases hol : osLoad s with
      | error m =>
        simp only [hol] at hsl
        exact Except.noConfusion hsl
      | ok lib =>
        simp only [hol] at hsl
        have h2 : SharedLib.mk lib lp = sl := Except.ok.inj hsl
        exact ⟨s, rfl, by rw [← h2]; exact hol, by rw [← h2]⟩

theorem C6_new_failure_behavior_witness :
    SharedLib.new .linuxLike (fun _ => (.error "boom" : Except String Unit))
        (LibPath.new "d" "n")
      = .error (.LoadFailure (toStringLossy "d/libn.so") "boom") :=
  (C6_new_failure_behavior .linuxLike (fun _ => (.error "boom" : Except String Unit))
    (LibPath.new "d" "n")).2.1 "d/libn.so" "boom" rfl rfl

/-- C7: when the symbol lookup fails, `get_fn` returns `SymbolNotFound`
whose `symbol_name` is the requested name and whose `lib_name` is the
resolved path of the descriptor the handle was loaded from, recomputed
via `path()`; a resolution error there is propagated instead. -/
theorem C7_getFn_symbolNotFound {Lib T : Type} (p : Platform)
    (getSym : Lib → String → Except String T) (sl : SharedLib Lib)
    (fn_name m : String) (h : getSym sl.lib fn_name = .error m) :
    (∀ pth, sl.lib_path.path p = .ok pth →
      sl.get_fn p getSym fn_name
        = .error (.SymbolNotFound fn_name (toStringLossy pth) m)) ∧
    (∀ e, sl.lib_path.path p = .error e → sl.get_fn p getSym fn_name = .error e) := by
  constructor <;> intro x hx <;> unfold SharedLib.get_fn <;> rw [h, hx]

theorem C7_getFn_symbolNotFound_witness :
    (SharedLib.mk () (LibPath.new "d" "n")).get_fn .linuxLike
        (fun _ _ => (.error "not found" : Except String Unit)) "foo"
      = .error (.SymbolNotFound "foo" (toStringLossy "d/libn.so") "not found") :=
  (C7_getFn_symbolNotFound .linuxLike (fun _ _ => (.error "not found" : Except String Unit))
    (SharedLib.mk () (LibPath.new "d" "n")) "foo" "not found" rfl).1 "d/libn.so" rfl

/-- C8: for every supported arity from zero through five, `run` forwards
the supplied arguments unchanged and in order to the underlying foreign
function pointer (an uninterpreted function) and returns its result. -/
theorem C8_run_forwards_args :
    (∀ (Ret : Type) (g : Unit → Ret), (SharedLibFn.mk g).run0 = g ()) ∧
    (∀ (A1 Ret : Type) (g : A1 → Ret) (a1 : A1),
      (SharedLibFn.mk g).run1 a1 = g a1) ∧
    (∀ (A1 A2 Ret : Type) (g : A1 → A2 → Ret) (a1 : A1) (a2 : A2),
      (SharedLibFn.mk g).run2 a1 a2 = g a1 a2) ∧
    (∀ (A1 A2 A3 Ret : Type) (g : A1 → A2 → A3 → Ret) (a1 : A1) (a2 : A2) (a3 : A3),
      (SharedLibFn.mk g).run3 a1 a2 a3 = g a1 a2 a3) ∧
    (∀ (A1 A2 A3 A4 Ret : Type) (g : A1 → A2 → A3 → A4 → Ret)
      (a1 : A1) (a2 : A2) (a3 : A3) (a4 : A4),
      (SharedLibFn.mk g).run4 a1 a2 a3 a4 = g a1 a2 a3 a4) ∧
    (∀ (A1 A2 A3 A4 A5 Ret : Type) (g : A1 → A2 → A3 → A4 → A5 → Ret)
      (a1 : A1) (a2 : A2) (a3 : A3) (a4 : A4) (a5 : A5),
      (SharedLibFn.mk g).run5 a1 a2 a3 a4 a5 = g a1 a2 a3 a4 a5) := by
  refine ⟨?_, ?_, ?_, ?_, ?_, ?_⟩ <;> intros <;> rfl

/-- C9: `filename` and `path` are deterministic pure functions of the
descriptor and the platform: equal descriptors yield equal results, and
`path` is fully determined by `filename` composed with the pure join of
the stored directory (no hidden state, no filesystem access in the
model). -/
theorem C9_deterministic_pure (p : Platform) (a b : LibPath) (h : a = b) :
    a.filename p = b.filename p ∧ a.path p = b.path p ∧
    (∀ f, a.filename p = .ok f → a.path p = .ok (pathJoin p a.dir_path f)) := by
  subst h
  refine ⟨rfl, rfl, ?_⟩
  intro f hf
  unfold LibPath.path
  rw [hf]

theorem C9_deterministic_pure_witness :
    (LibPath.new "d" "n").filename .linuxLike = (LibPath.new "d" "n").filename .linuxLike ∧
    (LibPath.new "d" "n").path .linuxLike = (LibPath.new "d" "n").path .linuxLike ∧
    (∀ f, (LibPath.new "d" "n").filename .linuxLike = .ok f →
      (LibPath.new "d" "n").path .linuxLike
        = .ok (pathJoin .linuxLike (LibPath.new "d" "n").dir_path f)) :=
  C9_deterministic_pure .linuxLike (LibPath.new "d" "n") (LibPath.new "d" "n") rfl

/-- C10: if the initial conversion of the descriptor to a platform
string succeeds with `s`, the recomputation inside the OS-failure branch
returns the same `s` (the conversion is a pure function), so the early
error return there is unreachable and the `path` reported inside
`LoadFailure` is exactly the string that was passed to the OS loader. -/
theorem C10_loadFailure_path_is_loader_input {Lib : Type} (p : Platform)
    (osLoad : String → Except String Lib) (lp : LibPath) (s m : String)
    (h : lp.tryIntoOsString p = .ok s) (hm : osLoad s = .error m) :
    SharedLib.new p osLoad lp = .error (.LoadFailure s m) := by
  unfold SharedLib.new
  simp only [h, hm]
  rfl

theorem C10_loadFailure_path_is_loader_input_witness :
    SharedLib.new .linuxLike (fun _ => (.error "no such file" : Except String Unit))
        (LibPath.new "dir" "name")
      = .error (.LoadFailure "dir/libname.so" "no such file") :=
  C10_loadFailure_path_is_loader_input .linuxLike
    (fun _ => (.error "no such file" : Except String Unit))
    (LibPath.new "dir" "name") "dir/libname.so" "no such file" rfl rfl
